import Mathlib

/-!
Shallow embedding of the Old-English declension learning game core
(`src/src/App.tsx`): the `WordSimple` / `DeclinationOfNoun` / `NounDeclined`
data model, the `DeclinationDictionary` registry, the answer matcher inside
`checkAnswer`, and the session scoring state machine of the `CaseMessenger`
component.  JavaScript exceptions are modelled with `Except String`; the
possibly-`undefined` results of JavaScript indexing are modelled with
`Option`.
-/

/-- The character class of the JavaScript regular expression used in the
`WordSimple` constructor, i.e. the set JavaScript writes as a backslash
followed by the letter s: space, tab, the control whitespace characters,
no-break space, the Unicode space separators, line/paragraph separators,
and the byte-order mark. -/
def isJsWhitespace (c : Char) : Bool :=
  c = ' ' || c = '\t' || c = '\n' || c = '\u000b' || c = '\u000c' ||
  c = '\r' || c = '\u00a0' || c = '\u1680' ||
  ('\u2000' ≤ c && c ≤ '\u200a') ||
  c = '\u2028' || c = '\u2029' || c = '\u202f' || c = '\u205f' ||
  c = '\u3000' || c = '\ufeff'

/-- The test of the regular expression on a whole string: true iff some
character of the string is JavaScript whitespace. -/
def jsWhitespaceTest (s : String) : Bool :=
  s.data.any isJsWhitespace

/-- The length of a JavaScript string, used in the source only through the
comparison with 0; counted here over the characters of the string. -/
def jsLength (s : String) : Nat :=
  s.data.length

/-- Embeds the TypeScript union type GrammaticalCase of `App.tsx`. -/
inductive GrammaticalCase where
  | nominative
  | accusative
  | genitive
  | dative
deriving DecidableEq, Repr

/-- Embeds the TypeScript union type GrammaticalNumber of `App.tsx`. -/
inductive GrammaticalNumber where
  | singular
  | dual
  | plural
deriving DecidableEq, Repr

/-- Embeds the TypeScript union type GrammaticalGender of `App.tsx`. -/
inductive GrammaticalGender where
  | feminine
  | neuter
  | masculine
deriving DecidableEq, Repr

/-- Embeds the TypeScript union type Strength of `App.tsx`. -/
inductive Strength where
  | strong
  | weak
deriving DecidableEq, Repr

/-- Embeds the class `WordSimple`: an immutable wrapper around the stored
string; the validation of the constructor lives in
`WordSimple.construct`. -/
structure WordSimple where
  value : String
deriving DecidableEq, Repr

/-- Embeds the `WordSimple` constructor: throws when the string is empty
or the whitespace regular expression matches, otherwise stores the string
unchanged. -/
def WordSimple.construct (s : String) : Except String WordSimple :=
  if jsLength s ≤ 0 || jsWhitespaceTest s then
    .error "Word contains a space or is empty."
  else
    .ok ⟨s⟩

/-- Embeds the `equals` method of `WordSimple`: exact string comparison
with the stored value. -/
def WordSimple.equals (w : WordSimple) (other : String) : Bool :=
  w.value == other

/-- Runtime shape of the TypeScript type GrammaticalNumberInfo as it is
actually produced by `ensureWordSimpleNumber` in `App.tsx`: the builder
starts from an empty object and only adds the fields whose raw string was
truthy, so at runtime every field may be absent, even though the declared
TypeScript type marks singular and plural as required. -/
structure GrammaticalNumberInfo where
  singular : Option WordSimple
  dual : Option WordSimple
  plural : Option WordSimple
deriving DecidableEq, Repr

/-- Embeds the TypeScript type GrammaticalNumberInfoParam of `App.tsx`:
the raw strings handed to the `DeclinationOfNoun` constructor, with dual
optional. -/
structure GrammaticalNumberInfoParam where
  singular : String
  dual : Option String
  plural : String
deriving DecidableEq, Repr

/-- One iteration of the loop body of `ensureWordSimpleNumber` in
`App.tsx`: a falsy member (in JavaScript the only falsy string is the
empty string) is skipped without being validated, a truthy member goes
through the `WordSimple` constructor, which may throw. -/
def ensureField (s : String) : Except String (Option WordSimple) :=
  if s = "" then
    .ok none
  else
    (WordSimple.construct s).map some

/-- Embeds the inner function `ensureWordSimpleNumber` of the
`DeclinationOfNoun` constructor: iterates over the supplied raw fields,
skipping falsy ones and wrapping truthy ones as `WordSimple` (propagating
the constructor throw). -/
def ensureWordSimpleNumber (p : GrammaticalNumberInfoParam) :
    Except String GrammaticalNumberInfo := do
  let sg ← ensureField p.singular
  let du ← match p.dual with
    | none => pure none
    | some d => ensureField d
  let pl ← ensureField p.plural
  return ⟨sg, du, pl⟩

/-- Embeds the class `DeclinationOfNoun` after construction: base word,
strength, gender, one (runtime) number-info record per core case, and the
optional instrumental record. -/
structure DeclinationOfNoun where
  base : WordSimple
  strength : Strength
  gender : GrammaticalGender
  nominative : GrammaticalNumberInfo
  genitive : GrammaticalNumberInfo
  dative : GrammaticalNumberInfo
  accusative : GrammaticalNumberInfo
  instrumental : Option GrammaticalNumberInfo
deriving DecidableEq, Repr

/-- Embeds the parameter object of the `DeclinationOfNoun`
constructor. -/
structure DeclinationOfNounParams where
  base : String
  strength : Strength
  gender : GrammaticalGender
  nominative : GrammaticalNumberInfoParam
  genitive : GrammaticalNumberInfoParam
  dative : GrammaticalNumberInfoParam
  accusative : GrammaticalNumberInfoParam
  instrumental : Option GrammaticalNumberInfoParam
deriving DecidableEq, Repr

/-- Embeds the `DeclinationOfNoun` constructor: the base goes through the
`WordSimple` constructor directly, each case record through
`ensureWordSimpleNumber`, the instrumental only when supplied; any throw
propagates. -/
def DeclinationOfNoun.construct (p : DeclinationOfNounParams) :
    Except String DeclinationOfNoun := do
  let base ← WordSimple.construct p.base
  let nom ← ensureWordSimpleNumber p.nominative
  let gen ← ensureWordSimpleNumber p.genitive
  let dat ← ensureWordSimpleNumber p.dative
  let acc ← ensureWordSimpleNumber p.accusative
  let inst ← match p.instrumental with
    | none => pure none
    | some i => (ensureWordSimpleNumber i).map some
  return ⟨base, p.strength, p.gender, nom, gen, dat, acc, inst⟩

/-- Embeds the indexing `declinations[caseGram]` used by the
`NounDeclined` constructor: each of the four grammatical cases hits the
corresponding getter of `DeclinationOfNoun`. -/
def DeclinationOfNoun.caseLookup (d : DeclinationOfNoun) :
    GrammaticalCase → GrammaticalNumberInfo
  | .nominative => d.nominative
  | .accusative => d.accusative
  | .genitive => d.genitive
  | .dative => d.dative

/-- Embeds the indexing `[number]` on a runtime number-info record: a
missing field reads as JavaScript undefined, modelled `none`. -/
def GrammaticalNumberInfo.numberLookup (info : GrammaticalNumberInfo) :
    GrammaticalNumber → Option WordSimple
  | .singular => info.singular
  | .dual => info.dual
  | .plural => info.plural

/-- Embeds the class `NounDeclined` after construction: the referenced
declination, the chosen case and number, and the resolved surface
string. -/
structure NounDeclined where
  declinations : DeclinationOfNoun
  caseGram : GrammaticalCase
  number : GrammaticalNumber
  value : String
deriving DecidableEq, Repr

/-- Embeds the `NounDeclined` constructor: looks up
`declinations[caseGram][number]`; throws when the entry is undefined,
otherwise caches the entry's string as the value. -/
def NounDeclined.construct (d : DeclinationOfNoun) (c : GrammaticalCase)
    (n : GrammaticalNumber) : Except String NounDeclined :=
  match (d.caseLookup c).numberLookup n with
  | none => .error "Number is not defined for this NounDeclined."
  | some w => .ok ⟨d, c, n, w.value⟩

/-- Embeds the class `DeclinationDictionary`: the private record from
base-form string to declination, modelled as the lookup function the
record denotes. -/
structure DeclinationDictionary where
  declinations : String → Option DeclinationOfNoun

/-- Embeds the `DeclinationDictionary` constructor: starts from an empty
record and stores each declination under `d.base.value`, a later entry
overwriting an earlier one with the same key. -/
def DeclinationDictionary.build (l : List DeclinationOfNoun) :
    DeclinationDictionary :=
  ⟨l.foldl
    (fun acc d k => if k = d.base.value then some d else acc k)
    (fun _ => none)⟩

/-- Embeds the `get` method of `DeclinationDictionary`: plain record
indexing, which in JavaScript yields undefined (here `none`) for an
absent key instead of throwing. -/
def DeclinationDictionary.get (dict : DeclinationDictionary)
    (key : String) : Option DeclinationOfNoun :=
  dict.declinations key

/-- Embeds the runtime distinction between the two token classes that the
source draws with an instance-of check: a token is either a plain
`WordSimple` or a `NounDeclined`. -/
inductive Token where
  | plain : WordSimple → Token
  | declined : NounDeclined → Token
deriving DecidableEq, Repr

/-- Embeds the type guard `isNounDeclined` of `App.tsx`. -/
def isNounDeclined : Token → Bool
  | .plain _ => false
  | .declined _ => true

/-- Embeds the interface `Scenario` of `App.tsx`. -/
structure Scenario where
  id : Nat
  modernTranslation : String
  hint : String
  correctPattern : List Token
deriving DecidableEq, Repr

/-- The constructor parameters of the seeded declination of the noun
cyning, copied from the `DECLINATIONS` literal in `App.tsx`. -/
def cyningParams : DeclinationOfNounParams :=
  { base := "cyning"
  , strength := .strong
  , gender := .masculine
  , nominative := ⟨"cyning", none, "cyningas"⟩
  , accusative := ⟨"cyning", none, "cyningas"⟩
  , genitive := ⟨"cyninges", none, "cyninga"⟩
  , dative := ⟨"cyninge", none, "cyningum"⟩
  , instrumental := none }

/-- The constructor parameters of the seeded declination of the noun
biscop, copied from the `DECLINATIONS` literal in `App.tsx`. -/
def biscopParams : DeclinationOfNounParams :=
  { base := "biscop"
  , strength := .strong
  , gender := .masculine
  , nominative := ⟨"biscop", none, "biscopas"⟩
  , accusative := ⟨"biscop", none, "biscopas"⟩
  , genitive := ⟨"biscopes", none, "biscopa"⟩
  , dative := ⟨"biscope", none, "biscopum"⟩
  , instrumental := none }

/-- The value the `DeclinationOfNoun` constructor produces for the cyning
seed (checked below against `DeclinationOfNoun.construct`). -/
def cyningDecl : DeclinationOfNoun :=
  { base := ⟨"cyning"⟩
  , strength := .strong
  , gender := .masculine
  , nominative := ⟨some ⟨"cyning"⟩, none, some ⟨"cyningas"⟩⟩
  , accusative := ⟨some ⟨"cyning"⟩, none, some ⟨"cyningas"⟩⟩
  , genitive := ⟨some ⟨"cyninges"⟩, none, some ⟨"cyninga"⟩⟩
  , dative := ⟨some ⟨"cyninge"⟩, none, some ⟨"cyningum"⟩⟩
  , instrumental := none }

/-- The value the `DeclinationOfNoun` constructor produces for the biscop
seed (checked below against `DeclinationOfNoun.construct`). -/
def biscopDecl : DeclinationOfNoun :=
  { base := ⟨"biscop"⟩
  , strength := .strong
  , gender := .masculine
  , nominative := ⟨some ⟨"biscop"⟩, none, some ⟨"biscopas"⟩⟩
  , accusative := ⟨some ⟨"biscop"⟩, none, some ⟨"biscopas"⟩⟩
  , genitive := ⟨some ⟨"biscopes"⟩, none, some ⟨"biscopa"⟩⟩
  , dative := ⟨some ⟨"biscope"⟩, none, some ⟨"biscopum"⟩⟩
  , instrumental := none }

/-- Embeds the module-level constant `DECLINATIONS` of `App.tsx`. -/
def DECLINATIONS : List DeclinationOfNoun :=
  [cyningDecl, biscopDecl]

/-- Embeds the module-level constant `declinationDictionary` of
`App.tsx`. -/
def declinationDictionary : DeclinationDictionary :=
  DeclinationDictionary.build DECLINATIONS

/-- The inflected token for cyning in the nominative singular, as built by
the first scenario of `App.tsx` (checked below against
`NounDeclined.construct`). -/
def cyningNomSg : NounDeclined :=
  ⟨cyningDecl, .nominative, .singular, "cyning"⟩

/-- The inflected token for biscop in the accusative singular, as built by
the first scenario of `App.tsx` (checked below against
`NounDeclined.construct`). -/
def biscopAccSg : NounDeclined :=
  ⟨biscopDecl, .accusative, .singular, "biscop"⟩

/-- The inflected token for biscop in the nominative singular; buildable
from the seeded table, used to compare inflected tokens of different
declinations. -/
def biscopNomSg : NounDeclined :=
  ⟨biscopDecl, .nominative, .singular, "biscop"⟩

/-- The correct pattern of the first (and only uncommented) scenario of
`App.tsx`. -/
def scenario1Pattern : List Token :=
  [ .plain ⟨"se"⟩
  , .declined cyningNomSg
  , .plain ⟨"grete"⟩
  , .plain ⟨"þone"⟩
  , .declined biscopAccSg ]

/-- Embeds the module-level constant `SCENARIOS` of `App.tsx` (the second
scenario is commented out in the source). -/
def SCENARIOS : List Scenario :=
  [ { id := 1
    , modernTranslation := "The king greets the bishop."
    , hint := "Who is doing the action? (nominative) Who receives it? (accusative)"
    , correctPattern := scenario1Pattern } ]

/-- Embeds one evaluation of the callback of `selectedWordArr.every` in
`checkAnswer`: the candidate token at an index is compared with the token
of the target pattern at the same index, which is undefined (`none`) when
the index is out of range.  Two inflected tokens compare by case and
number; two plain tokens compare by surface value; a kind mismatch gives
false.  A plain candidate token against an undefined target position
reads `.value` of undefined and so throws a TypeError. -/
def tokenMatch (word : Token) (ttok : Option Token) : Except String Bool :=
  match word, ttok with
  | .declined w, some (.declined t) =>
      .ok (decide (w.caseGram = t.caseGram) && decide (w.number = t.number))
  | .declined _, some (.plain _) => .ok false
  | .declined _, none => .ok false
  | .plain _, some (.declined _) => .ok false
  | .plain w, some (.plain t) => .ok (w.value == t.value)
  | .plain _, none =>
      .error "TypeError: cannot read properties of undefined (reading value)"

/-- Embeds `selectedWordArr.every(...)` over the candidate tokens,
starting at a given index into the target pattern: stops at the first
false (so a later throwing position is never reached, as in the
JavaScript short-circuit), propagates a throw, and is vacuously true on
an exhausted candidate. -/
def everyMatch (target : List Token) : List Token → Nat → Except String Bool
  | [], _ => .ok true
  | w :: rest, i =>
      match tokenMatch w target[i]? with
      | .error e => .error e
      | .ok false => .ok false
      | .ok true => everyMatch target rest (i + 1)

/-- The matcher inside `checkAnswer` of `App.tsx` as a function of the
candidate and the target pattern: the conjunction
`!!selectedWordArr.length && selectedWordArr.every(...)`, so an empty
candidate is false without the target being touched. -/
def checkMatch (candidate target : List Token) : Except String Bool :=
  if candidate.isEmpty then
    .ok false
  else
    everyMatch target candidate 0

/-- The success feedback string set by `checkAnswer` in `App.tsx`. -/
def correctFeedback : String :=
  "Correct! The case endings match the sentence meaning."

/-- The retry feedback string set by `checkAnswer` in `App.tsx`. -/
def retryFeedback : String :=
  "Try again! Check the case endings carefully."

/-- Embeds the React state of the `CaseMessenger` component that the
claims are about: score, current level, the selected-word candidate, the
feedback string, and the number of level-advance timeouts currently
scheduled (each correct answer schedules one). -/
structure SessionState where
  score : Int
  currentLevel : Nat
  selectedWordArr : List Token
  feedback : String
  pendingAdvances : Nat
deriving DecidableEq, Repr

/-- The initial React state of `CaseMessenger`: score 0, level 0, empty
candidate, empty feedback, no scheduled advance. -/
def initialState : SessionState :=
  ⟨0, 0, [], "", 0⟩

/-- Embeds `handleWordSelection` of `App.tsx`: appends the clicked token
to the candidate, with no guard of any kind. -/
def handleWordSelection (word : Token) (s : SessionState) : SessionState :=
  { s with selectedWordArr := s.selectedWordArr ++ [word] }

/-- Embeds the click handler on a chip of the assembled sentence in
`App.tsx`, which splices one element out of the candidate at the chip's
index. -/
def removeWordAt (index : Nat) (s : SessionState) : SessionState :=
  { s with selectedWordArr := s.selectedWordArr.eraseIdx index }

/-- The `isCorrect` computation of `checkAnswer` in `App.tsx` as a
function of the session state: an empty candidate is immediately false
(short-circuit before the scenario is touched); with a non-empty
candidate, reading `correctPattern` of an undefined scenario throws;
otherwise the matcher runs against the current scenario's pattern. -/
def submissionResult (s : SessionState) : Except String Bool :=
  if s.selectedWordArr.isEmpty then
    .ok false
  else
    match SCENARIOS[s.currentLevel]? with
    | none =>
        .error "TypeError: cannot read properties of undefined (reading correctPattern)"
    | some sc => checkMatch s.selectedWordArr sc.correctPattern

/-- Embeds `checkAnswer` of `App.tsx` as a state transition: on a correct
answer the score gains 10, the success feedback is shown and a deferred
level advance is scheduled (the candidate is NOT cleared until that
timeout fires); on an incorrect answer the retry feedback is shown and
the score becomes `max 0 (score - 5)`; a throw in the matcher
propagates. -/
def checkAnswer (s : SessionState) : Except String SessionState :=
  match submissionResult s with
  | .error e => .error e
  | .ok true =>
      .ok { s with
              score := s.score + 10
            , feedback := correctFeedback
            , pendingAdvances := s.pendingAdvances + 1 }
  | .ok false =>
      .ok { s with
              feedback := retryFeedback
            , score := max 0 (s.score - 5) }

/-- The session states reachable from the initial state by the user-driven
transitions: selecting a token, removing a token, and a `checkAnswer`
call that returns normally. -/
inductive Reachable : SessionState → Prop where
  | init : Reachable initialState
  | select {s : SessionState} (w : Token) :
      Reachable s → Reachable (handleWordSelection w s)
  | remove {s : SessionState} (i : Nat) :
      Reachable s → Reachable (removeWordAt i s)
  | check {s s' : SessionState} :
      Reachable s → checkAnswer s = .ok s' → Reachable s'

deriving instance DecidableEq for Except

/-- The state reached from the initial state by selecting, in order, the
five tokens of the first scenario's correct pattern. -/
def sReady : SessionState :=
  scenario1Pattern.foldl (fun s w => handleWordSelection w s) initialState

/-- The state right after `checkAnswer` accepts the candidate of `sReady`:
score 10, the success feedback, the candidate retained, one level advance
scheduled but not yet fired.  This is the window the spec calls the
Advancing state. -/
def sWindow : SessionState :=
  ⟨10, 0, scenario1Pattern, correctFeedback, 1⟩

/-- The state after a second `checkAnswer` fired inside the advancing
window of `sWindow`. -/
def sWindow2 : SessionState :=
  ⟨20, 0, scenario1Pattern, correctFeedback, 2⟩

/-- The state after removing the first chip of the retained candidate of
`sWindow`, which makes the candidate incorrect. -/
def sAfterRemove : SessionState :=
  removeWordAt 0 sWindow

/-- The error string of every validation throw of the `WordSimple`
constructor (the embedding drops the interpolated word). -/
def wordErrMsg : String :=
  "Word contains a space or is empty."

/-- What the `ensureWordSimpleNumber` loop stores for a raw field that
does not throw: nothing for the (falsy) empty string, the wrapped word
otherwise. -/
def fieldSkipOrWord (s : String) : Option WordSimple :=
  if s = "" then none else some ⟨s⟩

/-- The parameters of the cyning seed with the nominative singular raw
string replaced by the empty string. -/
def emptySingularParams : DeclinationOfNounParams :=
  { cyningParams with nominative := ⟨"", none, "cyningas"⟩ }

/-- A JavaScript string of length at most 0 is the empty string. -/
theorem jsLength_le_zero_iff (s : String) : jsLength s ≤ 0 ↔ s = "" := by
  unfold jsLength
  constructor
  · intro h
    have hd : s.data = [] := List.length_eq_zero.mp (Nat.le_zero.mp h)
    cases s with
    | mk data =>
        subst hd
        decide
  · intro h
    subst h
    decide

/-- One loop iteration of `ensureWordSimpleNumber`, characterised: it
throws exactly when the raw string contains whitespace (such a string is
truthy, so it reaches the `WordSimple` constructor), and otherwise stores
`fieldSkipOrWord`. -/
theorem ensureField_eq (s : String) :
    ensureField s =
      if jsWhitespaceTest s then .error wordErrMsg
      else .ok (fieldSkipOrWord s) := by
  unfold ensureField WordSimple.construct fieldSkipOrWord wordErrMsg
  by_cases h : s = ""
  · subst h
    decide
  · have hlen : ¬ jsLength s ≤ 0 := fun hc => h ((jsLength_le_zero_iff s).mp hc)
    by_cases hw : jsWhitespaceTest s <;>
      simp [h, hw, hlen, Except.map]

/-- The seeded declination constructions of `DECLINATIONS` succeed and
produce exactly the explicit records `cyningDecl` and `biscopDecl`. -/
theorem seeds_constructed :
    DeclinationOfNoun.construct cyningParams = .ok cyningDecl ∧
    DeclinationOfNoun.construct biscopParams = .ok biscopDecl := by
  decide

/-- The registry holds both seeded nouns under their base forms, exactly
as `SCENARIOS` retrieves them. -/
theorem dictionary_seeds :
    declinationDictionary.get "cyning" = some cyningDecl ∧
    declinationDictionary.get "biscop" = some biscopDecl := by
  decide

/-- Every token of the first scenario's correct pattern is produced by
the corresponding constructor call of `App.tsx`. -/
theorem scenario1Pattern_constructed :
    WordSimple.construct "se" = .ok ⟨"se"⟩ ∧
    NounDeclined.construct cyningDecl .nominative .singular = .ok cyningNomSg ∧
    WordSimple.construct "grete" = .ok ⟨"grete"⟩ ∧
    WordSimple.construct "þone" = .ok ⟨"þone"⟩ ∧
    NounDeclined.construct biscopDecl .accusative .singular = .ok biscopAccSg := by
  decide

/-- C1: the claim says `check` returns false for every candidate whose
length differs from the target's, in particular for a non-empty candidate
that pairwise-matches a strict prefix of the target.  The code has no
length comparison: `selectedWordArr.every` only visits candidate indices,
so the one-token candidate consisting of the plain word se is accepted as
a correct answer against the five-token target of scenario 1. -/
theorem c1_prefix_candidate_accepted :
    checkMatch [Token.plain ⟨"se"⟩] scenario1Pattern = .ok true ∧
    scenario1Pattern.length = 5 := by
  decide

/-- C2: the claim says `checkAnswer` never throws once the session runs.
The candidate assembled by selecting the five correct tokens of scenario 1
followed by one more click on the plain word se drives the matcher past
the end of the target pattern with a plain token, where the code reads
`.value` of an undefined array element and throws a TypeError. -/
theorem c2_overlong_candidate_throws :
    checkAnswer
        ((scenario1Pattern ++ [Token.plain ⟨"se"⟩]).foldl
          (fun s w => handleWordSelection w s) initialState) =
      .error "TypeError: cannot read properties of undefined (reading value)" := by
  decide

/-- C3 counterexample: for the absent base form þegen the registry's
`get` silently yields undefined (`none`); no LookupError of any kind is
raised, contradicting the claim's explicit-failure contract. -/
theorem c3_get_absent_returns_none :
    declinationDictionary.get "þegen" = none ∧
    "þegen" ∉ DECLINATIONS.map (fun d => d.base.value) := by
  decide

/-- Auxiliary: folding the insertion step over declinations whose base
form never equals the key leaves the accumulated record unchanged at that
key. -/
theorem build_foldl_absent (l : List DeclinationOfNoun)
    (acc : String → Option DeclinationOfNoun) (k : String)
    (h : k ∉ l.map (fun d => d.base.value)) :
    (l.foldl (fun acc d k => if k = d.base.value then some d else acc k) acc) k
      = acc k := by
  induction l generalizing acc with
  | nil => rfl
  | cons d l ih =>
      rw [List.map_cons, List.mem_cons] at h
      push_neg at h
      rw [List.foldl_cons, ih _ h.2]
      simp [h.1]

/-- Auxiliary: folding the insertion step over a list that contains a
declination whose base form equals the key ends with some declination
stored under that key, and its base form is the key. -/
theorem build_foldl_present (l : List DeclinationOfNoun)
    (acc : String → Option DeclinationOfNoun) (k : String)
    (h : k ∈ l.map (fun d => d.base.value)) :
    ∃ d, (l.foldl (fun acc d k => if k = d.base.value then some d else acc k) acc) k
            = some d ∧ d.base.value = k := by
  induction l generalizing acc with
  | nil => simp at h
  | cons d l ih =>
      by_cases hk : k ∈ l.map (fun d => d.base.value)
      · exact ih _ hk
      · have hd : k = d.base.value := by
          rw [List.map_cons, List.mem_cons] at h
          tauto
        refine ⟨d, ?_, hd.symm⟩
        rw [List.foldl_cons, build_foldl_absent l _ k hk]
        simp [hd]

/-- C3 amended: `DeclinationDictionary.get` never fails explicitly — for
a base form absent from the seed list it silently returns undefined
(`none`), and for a present base form it returns some seeded declination
stored under that base form. -/
theorem c3_get_silent_lookup (l : List DeclinationOfNoun) (k : String) :
    (k ∉ l.map (fun d => d.base.value) →
      (DeclinationDictionary.build l).get k = none) ∧
    (k ∈ l.map (fun d => d.base.value) →
      ∃ d, (DeclinationDictionary.build l).get k = some d ∧ d.base.value = k) := by
  constructor
  · intro h
    exact build_foldl_absent l _ k h
  · intro h
    exact build_foldl_present l _ k h

/-- C3 witness: the amended statement applied to the seeded registry, at
the absent key þegen and at the present key cyning. -/
theorem c3_get_silent_lookup_witness :
    (DeclinationDictionary.build DECLINATIONS).get "þegen" = none ∧
    ∃ d, (DeclinationDictionary.build DECLINATIONS).get "cyning" = some d ∧
          d.base.value = "cyning" :=
  ⟨(c3_get_silent_lookup DECLINATIONS "þegen").1 (by decide),
   (c3_get_silent_lookup DECLINATIONS "cyning").2 (by decide)⟩

/-- C4 counterexample: the session does not reject inputs during the
advancing window.  From the reachable state holding the correct candidate,
`checkAnswer` accepts and yields the window state `sWindow` (one advance
pending, candidate retained); inside that window a second `checkAnswer`
is processed normally and changes the score from 10 to 20 while queueing
a second advance, and a token selection changes the candidate. -/
theorem c4_window_inputs_not_rejected :
    checkAnswer sReady = .ok sWindow ∧
    sWindow.pendingAdvances = 1 ∧
    checkAnswer sWindow = .ok sWindow2 ∧
    sWindow2.score ≠ sWindow.score ∧
    (handleWordSelection (Token.plain ⟨"se"⟩) sWindow).selectedWordArr ≠
      sWindow.selectedWordArr := by
  decide

/-- C4 amended: while a level advance is pending, `selectToken` and
`checkAnswer` are not rejected and behave exactly as during normal play:
a selection appends its token to the candidate, and a `checkAnswer` whose
(retained) candidate is still correct adds another 10 to the score and
schedules another advance. -/
theorem c4_advancing_window_transitions (s : SessionState) (w : Token)
    (_h : 0 < s.pendingAdvances) :
    handleWordSelection w s =
      { s with selectedWordArr := s.selectedWordArr ++ [w] } ∧
    (submissionResult s = .ok true →
      checkAnswer s =
        .ok { s with
                score := s.score + 10
              , feedback := correctFeedback
              , pendingAdvances := s.pendingAdvances + 1 }) := by
  refine ⟨rfl, fun hc => ?_⟩
  unfold checkAnswer
  rw [hc]

/-- C4 witness: the amended statement applied inside the concrete window
state `sWindow`, whose pending advance and still-correct retained
candidate are checked by evaluation. -/
theorem c4_advancing_window_transitions_witness :
    handleWordSelection (Token.plain ⟨"se"⟩) sWindow =
      { sWindow with
          selectedWordArr := sWindow.selectedWordArr ++ [Token.plain ⟨"se"⟩] } ∧
    checkAnswer sWindow =
      .ok { sWindow with
              score := sWindow.score + 10
            , feedback := correctFeedback
            , pendingAdvances := sWindow.pendingAdvances + 1 } :=
  ⟨(c4_advancing_window_transitions sWindow (Token.plain ⟨"se"⟩) (by decide)).1,
   (c4_advancing_window_transitions sWindow (Token.plain ⟨"se"⟩) (by decide)).2
     (by decide)⟩

/-- C5 counterexample: a declension construction whose nominative
singular raw string is present but empty does not fail — the empty string
is falsy, so the `ensureWordSimpleNumber` loop skips it without calling
the `WordSimple` constructor, and the construction succeeds with the
nominative singular silently missing from the resulting record. -/
theorem c5_empty_field_skipped :
    DeclinationOfNoun.construct emptySingularParams =
      .ok { cyningDecl with nominative := ⟨none, none, some ⟨"cyningas"⟩⟩ } := by
  decide

/-- C5 amended: a number-form record construction fails (with the word
validation error) precisely when some present raw field contains
whitespace; a present empty field is skipped exactly like an absent dual,
omitted from the result with no placeholder and no error, and every other
present field is stored as a Word wrapping exactly its raw string. -/
theorem c5_numberform_validation (p : GrammaticalNumberInfoParam) :
    ensureWordSimpleNumber p =
      if jsWhitespaceTest p.singular ||
         (p.dual.map jsWhitespaceTest).getD false ||
         jsWhitespaceTest p.plural then
        .error wordErrMsg
      else
        .ok ⟨fieldSkipOrWord p.singular
            , p.dual.bind fieldSkipOrWord
            , fieldSkipOrWord p.plural⟩ := by
  obtain ⟨sg, du, pl⟩ := p
  cases du with
  | none =>
      by_cases h1 : jsWhitespaceTest sg <;>
        by_cases h3 : jsWhitespaceTest pl <;>
          simp [ensureWordSimpleNumber, ensureField_eq, h1, h3,
                Bind.bind, Except.bind, Pure.pure, Except.pure, Option.bind]
  | some d =>
      by_cases h1 : jsWhitespaceTest sg <;>
        by_cases h2 : jsWhitespaceTest d <;>
          by_cases h3 : jsWhitespaceTest pl <;>
            simp [ensureWordSimpleNumber, ensureField_eq, h1, h2, h3,
                  Bind.bind, Except.bind, Pure.pure, Except.pure, Option.bind]

/-- C6: in the matcher's pairwise comparison, two inflected tokens are
judged by grammatical case and number alone — the right-hand side of the
first equation mentions neither the referenced declination nor the
surface value — a plain token never equals an inflected token in either
orientation, and concretely the nominative singulars of the two different
seeded nouns cyning and biscop compare equal. -/
theorem c6_inflected_comparison :
    (∀ w t : NounDeclined,
      tokenMatch (.declined w) (some (.declined t)) =
        .ok (decide (w.caseGram = t.caseGram) && decide (w.number = t.number))) ∧
    (∀ (w : WordSimple) (t : NounDeclined),
      tokenMatch (.plain w) (some (.declined t)) = .ok false) ∧
    (∀ (w : NounDeclined) (t : WordSimple),
      tokenMatch (.declined w) (some (.plain t)) = .ok false) ∧
    cyningNomSg.declinations ≠ biscopNomSg.declinations ∧
    cyningNomSg.value ≠ biscopNomSg.value ∧
    tokenMatch (.declined cyningNomSg) (some (.declined biscopNomSg)) = .ok true :=
  ⟨fun _ _ => rfl, fun _ _ => rfl, fun _ _ => rfl, by decide, by decide, by decide⟩

/-- C7: `WordSimple` construction succeeds exactly on the non-empty
strings without (JavaScript) whitespace, storing exactly the raw string
as the value; on the empty string or any string containing a whitespace
character it throws the validation error. -/
theorem c7_word_validation (s : String) :
    (s ≠ "" ∧ jsWhitespaceTest s = false →
      WordSimple.construct s = .ok ⟨s⟩) ∧
    (s = "" ∨ jsWhitespaceTest s = true →
      WordSimple.construct s = .error wordErrMsg) ∧
    (∀ w, WordSimple.construct s = .ok w → w.value = s) := by
  unfold WordSimple.construct wordErrMsg
  refine ⟨fun ⟨he, hw⟩ => ?_, fun h => ?_, fun w hw => ?_⟩
  · have hlen : ¬ jsLength s ≤ 0 := fun hc => he ((jsLength_le_zero_iff s).mp hc)
    simp [hlen, hw]
  · rcases h with h | h
    · have : jsLength s ≤ 0 := (jsLength_le_zero_iff s).mpr h
      simp [this]
    · simp [h]
  · split at hw
    · cases hw
    · cases hw
      rfl

/-- C7 witness: the characterisation applied to the seeded word cyning,
to the empty string, and to a string containing a space. -/
theorem c7_word_validation_witness :
    WordSimple.construct "cyning" = .ok ⟨"cyning"⟩ ∧
    WordSimple.construct "" = .error wordErrMsg ∧
    WordSimple.construct "a b" = .error wordErrMsg :=
  ⟨(c7_word_validation "cyning").1 ⟨by decide, by decide⟩,
   (c7_word_validation "").2.1 (Or.inl rfl),
   (c7_word_validation "a b").2.1 (Or.inr (by decide))⟩

/-- C8: constructing an inflected word succeeds, caching exactly the
seeded surface string, whenever the declination's table has an entry for
the requested case and number, and throws the resolution error whenever
that entry is absent. -/
theorem c8_inflected_resolution (d : DeclinationOfNoun) (c : GrammaticalCase)
    (n : GrammaticalNumber) :
    (∀ w, (d.caseLookup c).numberLookup n = some w →
      NounDeclined.construct d c n = .ok ⟨d, c, n, w.value⟩) ∧
    ((d.caseLookup c).numberLookup n = none →
      NounDeclined.construct d c n =
        .error "Number is not defined for this NounDeclined.") := by
  unfold NounDeclined.construct
  constructor
  · intro w h
    rw [h]
  · intro h
    rw [h]

/-- C8 witness: for the seeded cyning declination, the nominative
singular entry resolves to exactly the seeded string cyning, and the
never-seeded nominative dual throws. -/
theorem c8_inflected_resolution_witness :
    NounDeclined.construct cyningDecl .nominative .singular = .ok cyningNomSg ∧
    NounDeclined.construct cyningDecl .nominative .dual =
      .error "Number is not defined for this NounDeclined." :=
  ⟨(c8_inflected_resolution cyningDecl .nominative .singular).1 ⟨"cyning"⟩
     (by decide),
   (c8_inflected_resolution cyningDecl .nominative .dual).2 (by decide)⟩

/-- C9: whenever the submission evaluates correct, `checkAnswer` returns
normally with the score raised by 10, and whenever it evaluates
incorrect, with the score set to `max 0 (score - 5)`. -/
theorem c9_score_update (s : SessionState) :
    (submissionResult s = .ok true →
      ∃ s2, checkAnswer s = .ok s2 ∧ s2.score = s.score + 10) ∧
    (submissionResult s = .ok false →
      ∃ s2, checkAnswer s = .ok s2 ∧ s2.score = max 0 (s.score - 5)) := by
  constructor
  · intro h
    refine ⟨{ s with
                score := s.score + 10
              , feedback := correctFeedback
              , pendingAdvances := s.pendingAdvances + 1 }, ?_, rfl⟩
    unfold checkAnswer
    rw [h]
  · intro h
    refine ⟨{ s with
                feedback := retryFeedback
              , score := max 0 (s.score - 5) }, ?_, rfl⟩
    unfold checkAnswer
    rw [h]

/-- C9 witness: the score updates applied along the concrete run of the
spec's end-to-end test — from score 0 with the correct candidate, one
correct submission reaches score `0 + 10`, and after removing the first
chip the incorrect submission reaches `max 0 (10 - 5) = 5`. -/
theorem c9_score_update_witness :
    (∃ s2, checkAnswer sReady = .ok s2 ∧ s2.score = sReady.score + 10) ∧
    (∃ s2, checkAnswer sAfterRemove = .ok s2 ∧
            s2.score = max 0 (sAfterRemove.score - 5)) ∧
    sReady.score = 0 ∧ sReady.score + 10 = sWindow.score ∧
    sAfterRemove.score = 10 ∧ max 0 (sAfterRemove.score - 5) = 5 :=
  ⟨(c9_score_update sReady).1 (by decide),
   (c9_score_update sAfterRemove).2 (by decide),
   by decide, by decide, by decide, by decide⟩

/-- Every normally-returning `checkAnswer` call either adds 10 to the
score or floors the score at `max 0 (score - 5)`. -/
theorem checkAnswer_score_cases {s s2 : SessionState}
    (h : checkAnswer s = .ok s2) :
    s2.score = s.score + 10 ∨ s2.score = max 0 (s.score - 5) := by
  unfold checkAnswer at h
  cases hr : submissionResult s with
  | error e =>
      rw [hr] at h
      cases h
  | ok b =>
      rw [hr] at h
      cases b
      · right
        cases h
        rfl
      · left
        cases h
        rfl

/-- C10: in every session state reachable from the initial state by token
selections, token removals, and normally-returning `checkAnswer` calls,
the score is a non-negative multiple of 5. -/
theorem c10_score_invariant (s : SessionState) (h : Reachable s) :
    0 ≤ s.score ∧ (5 : Int) ∣ s.score := by
  induction h with
  | init => exact ⟨le_refl 0, dvd_zero 5⟩
  | select w _ ih => exact ih
  | remove i _ ih => exact ih
  | check _ hok ih =>
      rename_i t t2 _
      rcases checkAnswer_score_cases hok with h2 | h2 <;> rw [h2]
      · exact ⟨by linarith [ih.1], dvd_add ih.2 (by norm_num)⟩
      · refine ⟨le_max_left 0 _, ?_⟩
        rcases le_total (t.score - 5) 0 with hle | hle
        · rw [max_eq_left hle]
          exact dvd_zero 5
        · rw [max_eq_right hle]
          exact dvd_sub ih.2 (by norm_num)

/-- C10 witness: the invariant applied to the initial state, which is
reachable by the empty transition sequence. -/
theorem c10_score_invariant_witness :
    0 ≤ initialState.score ∧ (5 : Int) ∣ initialState.score :=
  c10_score_invariant initialState Reachable.init
